import Mathlib

set_option maxRecDepth 100000

/-!
# Verification of the Campaign Generation Pipeline

Shallow embedding of the campaign generation pipeline of the
`content_engine` repository:

* `campaign-file-manager.ts` — asset loading, fuzzy product matching,
  review-flag creation (finalize), asset persistence;
* `campaign-prompt-generator.ts` — prompt composition over the
  (product × aspect-ratio) matrix, asset selection, templates;
* `pages/api/campaign-generate.js` — the orchestrator loop.

Effectful calls (image generation, file writes) are modelled by explicit
outcome oracles; machine-level nondeterminism (timestamps, campaign-id
randomness) is abstracted into parameters.  String operations follow the
JavaScript semantics of the source (ASCII lower-casing, `\s+` splitting
with leading/trailing empty tokens, truthiness of the empty string).
-/

namespace ContentEngine

/-! ## Data model (`campaign.types.ts`) -/

/-- `CampaignProduct` from `campaign.types.ts`. -/
structure CampaignProduct where
  name : String
  category : String
  keyFeatures : List String
  deriving Repr, DecidableEq

/-- `BrandGuidelines` from `campaign.types.ts`; the two optional lists are
`Option`s, `none` standing for an absent (`undefined`) field. -/
structure BrandGuidelines where
  colors : List String
  fonts : List String
  tone : String
  prohibitedContent : Option (List String)
  requiredElements : Option (List String)
  deriving Repr, DecidableEq

/-- `CampaignBrief` from `campaign.types.ts`. -/
structure CampaignBrief where
  campaignId : String
  products : List CampaignProduct
  targetRegion : String
  targetAudience : String
  campaignMessage : String
  brandGuidelines : BrandGuidelines
  deriving Repr, DecidableEq

/-- The three asset categories of `AssetData.type`. -/
inductive AssetType where
  | logo
  | background
  | productImage
  deriving Repr, DecidableEq

/-- `AssetData` from `campaign.types.ts`; `productMatch` is `none` for the
`undefined` field of the source. -/
structure AssetData where
  type : AssetType
  filename : String
  base64Data : String
  productMatch : Option String
  filePath : String
  deriving Repr, DecidableEq

/-! ## JavaScript string primitives used by the fuzzy matcher

`findBestProductMatch` in `campaign-file-manager.ts` uses
`toLowerCase()`, `replace(/[^a-z0-9\s]/g, ' ')`, `split(/\s+/)` and
`includes`.  We model them over `List Char`.  Lower-casing is the ASCII
case map (`Char.toLower`), and the `\s` class is modelled by the ASCII
whitespace characters. -/

/-- The `\s` character class restricted to its ASCII members
(tab, linefeed, vertical tab, formfeed, carriage return, space). -/
def jsIsSpace (c : Char) : Bool :=
  c.toNat = 9 || c.toNat = 10 || c.toNat = 11 || c.toNat = 12 ||
  c.toNat = 13 || c.toNat = 32

/-- Is `c` a lower-case ASCII letter or digit (the `[a-z0-9]` class)? -/
def isLowerAlnum (c : Char) : Bool :=
  (97 ≤ c.toNat && c.toNat ≤ 122) || (48 ≤ c.toNat && c.toNat ≤ 57)

/-- `s.toLowerCase().replace(/[^a-z0-9\s]/g, ' ')`: lower-case, then
replace every character that is neither `[a-z0-9]` nor whitespace by a
single space.  Whitespace characters are preserved as-is, exactly as the
`\s` inside the negated class does in the source. -/
def cleanChars (s : List Char) : List Char :=
  s.map fun c =>
    let d := c.toLower
    if isLowerAlnum d || jsIsSpace d then d else ' '

/-- State machine for `split(/\s+/)`: `cur` is the reversed current
token, `inRun` records whether the previous character belonged to a
whitespace run (so further whitespace is absorbed into the same
separator). -/
def jsSplitWsGo : List Char → List Char → Bool → List (List Char)
  | [], cur, _ => [cur.reverse]
  | c :: cs, cur, inRun =>
    if jsIsSpace c then
      if inRun then jsSplitWsGo cs cur true
      else cur.reverse :: jsSplitWsGo cs [] true
    else jsSplitWsGo cs (c :: cur) false

/-- `s.split(/\s+/)` on a character list: tokens are separated by maximal
whitespace runs; a leading (resp. trailing) whitespace run produces a
leading (resp. trailing) empty token, and the empty string splits to
`[""]`, following the JavaScript semantics. -/
def jsSplitWs (s : List Char) (acc : List Char) : List (List Char) :=
  jsSplitWsGo s acc false

/-! ## The fuzzy matcher (`findBestProductMatch`) -/

/-- `haystack.includes(needle)` on character lists: substring test. -/
def strIncludes (haystack needle : List Char) : Bool :=
  decide (needle <:+: haystack)

/-- The per-product test of the `for` loop body of `findBestProductMatch`:
split the normalized product name on whitespace, keep the words of length
`> 2` that occur as substrings of the normalized filename
(`cleanFilename.includes(word)`), and require at least
`Math.ceil(productWords.length / 2)` of them (with at least one). -/
def matchesProduct (cleanFilename : List Char) (productName : String) : Bool :=
  let cleanProductName := cleanChars productName.data
  let productWords := jsSplitWs cleanProductName []
  let matchingWords := productWords.filter fun w =>
    decide (w.length > 2) && strIncludes cleanFilename w
  decide (matchingWords.length > 0) &&
    decide (matchingWords.length ≥ (productWords.length + 1) / 2)

/-- `findBestProductMatch` from `campaign-file-manager.ts`: return the
first product of the list whose name fuzzily matches the filename,
`none` if no product qualifies. -/
def findBestProductMatch (filename : String) (productNames : List String) :
    Option String :=
  let cleanFilename := cleanChars filename.data
  productNames.find? fun p => matchesProduct cleanFilename p

/-- The matching condition as the specification words it: at least half
(rounded up) of the product name's qualifying words — those of length
greater than 2 — appear as substrings of the normalized filename.  This
definition follows the spec's sentence, for comparison with the source's
`matchesProduct`. -/
def specWordedFuzzyMatch (filename productName : String) : Bool :=
  let normalizedFilename := cleanChars filename.data
  let words := jsSplitWs (cleanChars productName.data) []
  let qualifying := words.filter fun w => decide (2 < w.length)
  let appearing := qualifying.filter fun w => strIncludes normalizedFilename w
  decide ((qualifying.length + 1) / 2 ≤ appearing.length)

/-- The matching condition the code actually implements, worded as close
to the claim as the code allows: at least one qualifying word appears,
and the number of qualifying words appearing reaches half (rounded up) of
the count of ALL whitespace-separated words of the normalized product
name, short and empty words included. -/
def amendedFuzzyMatch (filename productName : String) : Bool :=
  let normalizedFilename := cleanChars filename.data
  let words := jsSplitWs (cleanChars productName.data) []
  let appearingQualifying :=
    words.countP fun w => decide (2 < w.length) && strIncludes normalizedFilename w
  decide (0 < appearingQualifying) &&
    decide ((words.length + 1) / 2 ≤ appearingQualifying)

theorem matchesProduct_eq_amended (filename productName : String) :
    matchesProduct (cleanChars filename.data) productName =
      amendedFuzzyMatch filename productName := by
  simp [matchesProduct, amendedFuzzyMatch, List.countP_eq_length_filter,
    Nat.lt_iff_add_one_le, ge_iff_le]

/-- C4 counterexample: for filename `widget.png` and product name
`a b widget`, the spec-worded condition holds — the only qualifying word,
`widget`, appears, so at least `ceil(1/2) = 1` qualifying word matches —
yet the matcher declares no match, because its threshold is computed from
all three split words (`ceil(3/2) = 2`). -/
theorem fuzzyMatch_spec_mismatch :
    specWordedFuzzyMatch "widget.png" "a b widget" = true ∧
      findBestProductMatch "widget.png" ["a b widget"] = none := by
  constructor
  · decide
  · decide

/-- C4 (amended): the fuzzy matcher declares a product matched to a
filename exactly when at least one qualifying word (length `> 2`) of the
normalized product name appears as a substring of the normalized
filename, and the number of appearing qualifying words is at least half
(rounded up) of the count of all whitespace-separated words of the
normalized product name (not just the qualifying ones). -/
theorem findBestProductMatch_amended_condition
    (filename : String) (productNames : List String) :
    findBestProductMatch filename productNames =
      productNames.find? fun p => amendedFuzzyMatch filename p := by
  unfold findBestProductMatch
  induction productNames with
  | nil => rfl
  | cons q qs ih =>
      simp only [List.find?, matchesProduct_eq_amended filename q]
      cases amendedFuzzyMatch filename q <;> simp [ih]

/-- C10: when several products qualify for one filename, the matcher
returns the first qualifying product in list order — earlier products
shadow later ones, and no cross-product quality comparison happens. -/
theorem findBestProductMatch_first_match
    (filename p : String) (l₁ l₂ : List String)
    (hnone : ∀ q ∈ l₁, matchesProduct (cleanChars filename.data) q = false)
    (hp : matchesProduct (cleanChars filename.data) p = true) :
    findBestProductMatch filename (l₁ ++ p :: l₂) = some p := by
  unfold findBestProductMatch
  induction l₁ with
  | nil => simp [List.find?, hp]
  | cons q l₁ ih =>
      have hq : matchesProduct (cleanChars filename.data) q = false :=
        hnone q (List.mem_cons_self q l₁)
      simp only [List.cons_append, List.find?, hq]
      exact ih fun r hr => hnone r (List.mem_cons_of_mem q hr)

/-- C10 witness: `widget_pro_max.png` fuzzily matches both
`widget pro` and `widget max`; the matcher returns the first. -/
theorem findBestProductMatch_first_match_witness :
    matchesProduct (cleanChars "widget_pro_max.png".data) "widget max" = true ∧
      findBestProductMatch "widget_pro_max.png" ["widget pro", "widget max"] =
        some "widget pro" := by
  refine ⟨by decide, ?_⟩
  exact findBestProductMatch_first_match "widget_pro_max.png" "widget pro" [] ["widget max"]
    (by intro q hq; cases hq) (by decide)

/-! ## Prompt composition (`campaign-prompt-generator.ts`)

The LangChain `PromptTemplate.format` calls are pure string substitution;
they are embedded as total Lean functions concatenating the template's
literal segments with the substituted fields, so the `catch`/fallback
branch of the source (taken only if formatting throws) is unreachable in
the model. -/

/-- `CampaignPrompt` from `campaign.types.ts` (the legacy, text-only
shape); the `aspectRatio` union type is embedded as `String`. -/
structure CampaignPrompt where
  productName : String
  aspectRatio : String
  generatedPrompt : String
  brandContext : String
  targetAudience : String
  deriving Repr, DecidableEq

/-- `EnhancedCampaignPrompt` from `campaign.types.ts`. -/
structure EnhancedCampaignPrompt where
  productName : String
  aspectRatio : String
  generatedPrompt : String
  brandContext : String
  targetAudience : String
  associatedAssets : List AssetData
  deriving Repr, DecidableEq

/-- One row of `ASPECT_RATIO_CONFIGS`. -/
structure AspectConfigEntry where
  platformOptimization : String
  compositionGuide : String
  formatSpecificGuidance : String
  compositionDetails : String
  deriving Repr, DecidableEq

/-- `ASPECT_RATIO_CONFIGS` from `campaign-prompt-generator.ts`.  The
source object has exactly the keys `1:1`, `9:16`, `16:9` and is only ever
indexed at those keys; the embedding returns the `16:9` row for any other
key. -/
def ASPECT_RATIO_CONFIGS (r : String) : AspectConfigEntry :=
  if r = "1:1" then
    { platformOptimization := "Instagram feed, Facebook post, LinkedIn post"
      compositionGuide := "Centered, balanced composition with equal spacing"
      formatSpecificGuidance := "Perfect for square Instagram posts - center the product with balanced negative space, ensure all key elements are visible within the square frame"
      compositionDetails := "Use central focal point, symmetrical balance, avoid elements that would be cut off in square format" }
  else if r = "9:16" then
    { platformOptimization := "Instagram Stories, TikTok, Snapchat, vertical social formats"
      compositionGuide := "Vertical composition, top-to-bottom visual flow"
      formatSpecificGuidance := "Optimized for mobile viewing in vertical orientation - stack elements vertically, use the full height effectively, ensure text readability on mobile devices"
      compositionDetails := "Utilize vertical space with layered composition, place key messaging in top third for better story visibility, bottom third clear for CTA overlays" }
  else
    { platformOptimization := "YouTube thumbnails, LinkedIn cover, Facebook cover, Twitter header"
      compositionGuide := "Horizontal landscape composition, left-to-right flow"
      formatSpecificGuidance := "Landscape format perfect for cover photos and headers - use horizontal space for storytelling, create dynamic left-to-right visual flow"
      compositionDetails := "Leverage wide format for environmental context, use rule of thirds, create depth with foreground/background elements" }

/-- The fixed iteration order of the inner loop:
`const aspectRatios = ['1:1', '9:16', '16:9']`. -/
def aspectRatios : List String := ["1:1", "9:16", "16:9"]

/-- `selectBestAssetsForProduct`: `!asset.productMatch` in the source is
JavaScript truthiness, so an absent tag and an empty-string tag are both
"generic". -/
def isFalsyTag (tag : Option String) : Bool :=
  match tag with
  | none => true
  | some s => s == ""

/-- The order in which `selectBestAssetsForProduct` walks the categories:
`['logo', 'background', 'product-image']`. -/
def assetTypesOrder : List AssetType :=
  [AssetType.logo, AssetType.background, AssetType.productImage]

/-- The body of the `for (const assetType of assetTypes)` loop of
`selectBestAssetsForProduct`: the asset selected for one category
(`find` on the product-specific sublist, falling back to `find` on the
generic sublist), or `none` when the iteration pushes nothing. -/
def selectAssetForType (productName : String) (allAssets : List AssetData)
    (ty : AssetType) : Option AssetData :=
  let productSpecificAssets := allAssets.filter fun a => a.productMatch == some productName
  let genericAssets := allAssets.filter fun a => isFalsyTag a.productMatch
  match productSpecificAssets.find? (fun a => a.type == ty) with
  | some a => some a
  | none => genericAssets.find? fun a => a.type == ty

/-- `selectBestAssetsForProduct` from `campaign-prompt-generator.ts`:
for each category in the fixed order, pick the first pool asset tagged to
this product, else the first generic (untagged) asset of the category,
else skip the category. -/
def selectBestAssetsForProduct (productName : String) (allAssets : List AssetData) :
    List AssetData :=
  assetTypesOrder.filterMap (selectAssetForType productName allAssets)

/-- `getLogoPlacement` from `campaign-prompt-generator.ts`. -/
def getLogoPlacement (r : String) : String :=
  if r = "1:1" then "position in bottom right corner or top left corner"
  else if r = "9:16" then "position in top third area for story format visibility"
  else if r = "16:9" then "position in bottom right corner or integrate into header area"
  else "position prominently while maintaining design balance"

/-- The `switch (asset.type)` body of `buildAssetInstructions`: the
instruction line and the integration-guidance sentence contributed by one
asset, where `idx` is its zero-based position. -/
def assetInstructionPair (asset : AssetData) (idx : Nat) (r : String) : String × String :=
  let imageRef := "image " ++ toString (idx + 1)
  match asset.type with
  | AssetType.logo =>
      ("- Logo: Use the logo from " ++ imageRef ++ " (" ++ asset.filename ++ ") - " ++
         getLogoPlacement r,
       "Ensure the logo from " ++ imageRef ++
         " is prominently positioned and maintains brand visibility")
  | AssetType.background =>
      ("- Background: Use the background from " ++ imageRef ++ " (" ++ asset.filename ++
         ") as the base layer",
       "Use the background from " ++ imageRef ++
         " as foundation, ensuring good contrast for text and product")
  | AssetType.productImage =>
      ("- Product Image: Incorporate the product visual from " ++ imageRef ++ " (" ++
         asset.filename ++ ") as hero element",
       "Feature the product from " ++ imageRef ++
         " prominently while maintaining natural composition")

/-- `buildAssetInstructions` from `campaign-prompt-generator.ts`.  Every
`AssetType` case of the `switch` pushes a pair, so with a non-empty asset
list the post-loop empty-instructions check and the `||` fallback of the
source never fire; both are kept for fidelity. -/
def buildAssetInstructions (assets : List AssetData) (r : String) : String × String :=
  if assets.length = 0 then
    ("No existing assets provided - generate all elements using AI.",
     "Create cohesive design elements that work together harmoniously.")
  else
    let pairs := assets.enum.map fun p => assetInstructionPair p.2 p.1 r
    let instructions := pairs.map Prod.fst
    let integrationGuidance := pairs.map Prod.snd
    let instructions :=
      if instructions.length = 0 then
        ["No existing assets provided - generate all elements using AI."]
      else instructions
    let joined := String.intercalate ", " integrationGuidance
    (String.intercalate "\n" instructions,
     if joined = "" then
       "Create cohesive design elements that work together harmoniously."
     else joined)

/-- `MULTI_IMAGE_PROMPT_TEMPLATE.format(...)`: the asset-aware template of
`campaign-prompt-generator.ts` with its fifteen fields substituted in. -/
def multiImagePromptFormat (productName category keyFeatures targetAudience
    campaignMessage brandColors brandTone requiredElements aspectText
    platformOptimization compositionGuide formatSpecificGuidance
    compositionDetails assetInstructions assetIntegrationGuidance : String) : String :=
  "Create a professional product marketing image for " ++ productName ++
  ":\n\nASSET COMPOSITION INSTRUCTIONS:\n" ++ assetInstructions ++
  "\n\nPRODUCT DETAILS:\n- Product: " ++ productName ++
  "\n- Category: " ++ category ++
  "\n- Key Features: " ++ keyFeatures ++
  "\n- Target Audience: " ++ targetAudience ++
  "\n- Campaign Message: \"" ++ campaignMessage ++
  "\"\n\nBRAND REQUIREMENTS:\n- Brand Colors: " ++ brandColors ++
  "\n- Visual Tone: " ++ brandTone ++
  "\n- Required Elements: " ++ requiredElements ++
  "\n\nTECHNICAL SPECIFICATIONS:\n- Aspect Ratio: " ++ aspectText ++
  "\n- Platform Optimization: " ++ platformOptimization ++
  "\n- Composition Style: " ++ compositionGuide ++
  "\n\nCREATIVE DIRECTION:\nSeamlessly compose all provided images into a cohesive marketing asset that:\n\n1. ASSET INTEGRATION: " ++ assetIntegrationGuidance ++
  "\n\n2. PRODUCT FOCUS: Showcase the " ++ productName ++
  " prominently with clear visibility of its key features: " ++ keyFeatures ++
  "\n\n3. BRAND CONSISTENCY: \n   - Use brand color palette: " ++ brandColors ++
  "\n   - Maintain " ++ brandTone ++
  " visual aesthetic\n   - Include required brand elements: " ++ requiredElements ++
  "\n\n4. AUDIENCE APPEAL: Design to resonate with " ++ targetAudience ++
  ", conveying the message \"" ++ campaignMessage ++
  "\"\n\n5. FORMAT OPTIMIZATION: " ++ formatSpecificGuidance ++
  "\n\n6. COMPOSITION: " ++ compositionDetails ++
  "\n\nStyle: Professional product photography, clean and modern, high resolution, excellent lighting, premium quality aesthetic, marketing-ready commercial image."

/-- `CAMPAIGN_PROMPT_TEMPLATE.format(...)`: the text-only template used by
the legacy `generateCampaignPrompts` path. -/
def campaignPromptFormat (productName category keyFeatures targetAudience
    campaignMessage brandColors brandTone requiredElements aspectText
    platformOptimization compositionGuide formatSpecificGuidance
    compositionDetails : String) : String :=
  "Create a professional product marketing image for social media:\n\nPRODUCT DETAILS:\n- Product: " ++ productName ++
  "\n- Category: " ++ category ++
  "\n- Key Features: " ++ keyFeatures ++
  "\n- Target Audience: " ++ targetAudience ++
  "\n- Campaign Message: \"" ++ campaignMessage ++
  "\"\n\nBRAND REQUIREMENTS:\n- Brand Colors: " ++ brandColors ++
  "\n- Visual Tone: " ++ brandTone ++
  "\n- Required Elements: " ++ requiredElements ++
  "\n\nTECHNICAL SPECIFICATIONS:\n- Aspect Ratio: " ++ aspectText ++
  "\n- Platform Optimization: " ++ platformOptimization ++
  "\n- Composition Style: " ++ compositionGuide ++
  "\n\nCREATIVE DIRECTION:\nGenerate a high-quality, photorealistic product image that:\n\n1. PRODUCT FOCUS: Showcase the " ++ productName ++
  " prominently with clear visibility of its key features: " ++ keyFeatures ++
  "\n\n2. BRAND CONSISTENCY: \n   - Use brand color palette: " ++ brandColors ++
  "\n   - Maintain " ++ brandTone ++
  " visual aesthetic\n   - Include required brand elements: " ++ requiredElements ++
  "\n\n3. AUDIENCE APPEAL: Design to resonate with " ++ targetAudience ++
  ", conveying the message \"" ++ campaignMessage ++
  "\"\n\n4. FORMAT OPTIMIZATION: " ++ formatSpecificGuidance ++
  "\n\n5. COMPOSITION: " ++ compositionDetails ++
  "\n\nStyle: Professional product photography, clean and modern, high resolution, excellent lighting, premium quality aesthetic, marketing-ready commercial image."

/-- The rendering of the `requiredElements` field:
`brief.brandGuidelines.requiredElements?.join(', ') || 'brand logo'`,
where `||` falls through on the empty string. -/
def requiredElementsText (g : BrandGuidelines) : String :=
  match g.requiredElements with
  | none => "brand logo"
  | some l =>
      let s := String.intercalate ", " l
      if s = "" then "brand logo" else s

/-- Minimal JSON string escaping (backslash and double quote). -/
def jsonEscape (s : String) : String :=
  String.join (s.data.map fun c =>
    if c = '"' then "\\\"" else if c = '\\' then "\\\\" else String.mk [c])

def jsonStr (s : String) : String := "\"" ++ jsonEscape s ++ "\""

def jsonStrArray (l : List String) : String :=
  "[" ++ String.intercalate "," (l.map jsonStr) ++ "]"

/-- `JSON.stringify(brief.brandGuidelines)`, with the interface's
declaration order as the canonical key order and `undefined` optional
fields omitted, as `JSON.stringify` omits them. -/
def jsonStringifyBrandGuidelines (g : BrandGuidelines) : String :=
  "\x7b" ++ jsonStr "colors" ++ ":" ++ jsonStrArray g.colors ++
  "," ++ jsonStr "fonts" ++ ":" ++ jsonStrArray g.fonts ++
  "," ++ jsonStr "tone" ++ ":" ++ jsonStr g.tone ++
  (match g.prohibitedContent with
   | none => ""
   | some l => "," ++ jsonStr "prohibitedContent" ++ ":" ++ jsonStrArray l) ++
  (match g.requiredElements with
   | none => ""
   | some l => "," ++ jsonStr "requiredElements" ++ ":" ++ jsonStrArray l) ++
  "\x7d"

/-- The body of the inner (`ratio`) loop of `generateMultiImagePrompts`:
one `(prompt, assets)` pair for a product and an aspect ratio. -/
def mkPromptUnit (brief : CampaignBrief) (productAssets : List AssetData)
    (product : CampaignProduct) (r : String) :
    EnhancedCampaignPrompt × List AssetData :=
  let aspectConfig := ASPECT_RATIO_CONFIGS r
  let built := buildAssetInstructions productAssets r
  let generatedPrompt :=
    multiImagePromptFormat product.name product.category
      (String.intercalate ", " product.keyFeatures)
      brief.targetAudience brief.campaignMessage
      (String.intercalate ", " brief.brandGuidelines.colors)
      brief.brandGuidelines.tone
      (requiredElementsText brief.brandGuidelines)
      r
      aspectConfig.platformOptimization
      aspectConfig.compositionGuide
      aspectConfig.formatSpecificGuidance
      aspectConfig.compositionDetails
      built.1 built.2
  (⟨product.name, r, generatedPrompt,
     jsonStringifyBrandGuidelines brief.brandGuidelines,
     brief.targetAudience, productAssets⟩,
   productAssets)

/-- The inner loop of `generateMultiImagePrompts` for one product. -/
def unitsForProduct (brief : CampaignBrief) (assets : List AssetData)
    (product : CampaignProduct) : List (EnhancedCampaignPrompt × List AssetData) :=
  let productAssets := selectBestAssetsForProduct product.name assets
  aspectRatios.map fun r => mkPromptUnit brief productAssets product r

/-- `generateMultiImagePrompts` from `campaign-prompt-generator.ts`:
outer loop over the brief's products in order, inner loop over the three
fixed aspect ratios, one `push` per iteration. -/
def generateMultiImagePrompts (brief : CampaignBrief) (assets : List AssetData) :
    List (EnhancedCampaignPrompt × List AssetData) :=
  brief.products.flatMap (unitsForProduct brief assets)

/-- The body of the inner loop of the legacy `generateCampaignPrompts`. -/
def mkLegacyPrompt (brief : CampaignBrief) (product : CampaignProduct)
    (r : String) : CampaignPrompt :=
  let aspectConfig := ASPECT_RATIO_CONFIGS r
  ⟨product.name, r,
   campaignPromptFormat product.name product.category
     (String.intercalate ", " product.keyFeatures)
     brief.targetAudience brief.campaignMessage
     (String.intercalate ", " brief.brandGuidelines.colors)
     brief.brandGuidelines.tone
     (requiredElementsText brief.brandGuidelines)
     r
     aspectConfig.platformOptimization
     aspectConfig.compositionGuide
     aspectConfig.formatSpecificGuidance
     aspectConfig.compositionDetails,
   jsonStringifyBrandGuidelines brief.brandGuidelines,
   brief.targetAudience⟩

/-- The legacy text-only `generateCampaignPrompts`, kept in the source for
the UI preview path; the only consumer of `CAMPAIGN_PROMPT_TEMPLATE`. -/
def generateCampaignPrompts (brief : CampaignBrief) : List CampaignPrompt :=
  brief.products.flatMap fun product =>
    aspectRatios.map fun r => mkLegacyPrompt brief product r

/-- `validateAndEnhanceBrief` from `campaign-prompt-generator.ts` as a
pure update: fill a missing required-elements list with
`['brand logo', 'legal disclaimer']` and a missing prohibited-content
list with `['competitor mentions', 'unsubstantiated claims']`. -/
def validateAndEnhanceBrief (brief : CampaignBrief) : CampaignBrief :=
  let g := brief.brandGuidelines
  let g :=
    match g.requiredElements with
    | none => { g with requiredElements := some ["brand logo", "legal disclaimer"] }
    | some _ => g
  let g :=
    match g.prohibitedContent with
    | none => { g with prohibitedContent := some ["competitor mentions", "unsubstantiated claims"] }
    | some _ => g
  { brief with brandGuidelines := g }

/-! ## C1: the generation-unit matrix -/

theorem unitsForProduct_length (brief : CampaignBrief) (assets : List AssetData)
    (product : CampaignProduct) : (unitsForProduct brief assets product).length = 3 := by
  simp [unitsForProduct, aspectRatios]

theorem flatMap_units_getElem? (brief : CampaignBrief) (assets : List AssetData) :
    ∀ (ps : List CampaignProduct) (i j : Nat), j < 3 →
      (ps.flatMap (unitsForProduct brief assets))[3 * i + j]? =
        (ps[i]?).bind fun p => (unitsForProduct brief assets p)[j]? := by
  intro ps
  induction ps with
  | nil => intro i j _; simp
  | cons p ps ih =>
      intro i j hj
      cases i with
      | zero =>
          rw [List.flatMap_cons, List.getElem?_append_left]
          · simp
          · rw [unitsForProduct_length]; omega
      | succ i =>
          rw [List.flatMap_cons, List.getElem?_append_right]
          · rw [unitsForProduct_length]
            have harith : 3 * (i + 1) + j - 3 = 3 * i + j := by ring_nf; omega
            rw [harith, ih i j hj]
            simp
          · rw [unitsForProduct_length]; omega

theorem flatMap_units_length (brief : CampaignBrief) (assets : List AssetData) :
    ∀ ps : List CampaignProduct,
      (ps.flatMap (unitsForProduct brief assets)).length = 3 * ps.length := by
  intro ps
  induction ps with
  | nil => simp
  | cons p ps ih =>
      rw [List.flatMap_cons, List.length_append, unitsForProduct_length, ih,
        List.length_cons]
      ring

/-- C1: for a brief with `P` products, prompt generation produces exactly
`3 × P` generation units, in deterministic product-then-ratio order: the
unit at position `3·i + j` is built for the `i`-th product of the brief
and the `j`-th entry of the fixed ratio list `['1:1', '9:16', '16:9']`. -/
theorem generateMultiImagePrompts_matrix (brief : CampaignBrief) (assets : List AssetData) :
    (generateMultiImagePrompts brief assets).length = 3 * brief.products.length ∧
    ∀ i j p, brief.products[i]? = some p → j < 3 →
      ∃ u, (generateMultiImagePrompts brief assets)[3 * i + j]? = some u ∧
        u.1.productName = p.name ∧ aspectRatios[j]? = some u.1.aspectRatio := by
  constructor
  · exact flatMap_units_length brief assets brief.products
  · intro i j p hp hj
    rw [generateMultiImagePrompts, flatMap_units_getElem? brief assets _ i j hj, hp,
      Option.some_bind, unitsForProduct, List.getElem?_map]
    interval_cases j <;>
      exact ⟨_, rfl, rfl, rfl⟩

/-- A small two-product brief used as the C1 witness input. -/
def briefC1 : CampaignBrief :=
  ⟨"c1", [⟨"Widget Pro", "tools", ["durable"]⟩, ⟨"Gadget Mini", "toys", ["small"]⟩],
   "US", "makers", "Build on", ⟨["#fff"], ["Inter"], "bold", none, none⟩⟩

/-- C1 witness: a two-product brief yields six units, and the unit at
position `3·1 + 2` is the second product with ratio `16:9`. -/
theorem generateMultiImagePrompts_matrix_witness :
    (generateMultiImagePrompts briefC1 []).length = 3 * 2 ∧
    ∃ u, (generateMultiImagePrompts briefC1 [])[3 * 1 + 2]? = some u ∧
      u.1.productName = "Gadget Mini" ∧ aspectRatios[2]? = some u.1.aspectRatio := by
  refine ⟨(generateMultiImagePrompts_matrix briefC1 []).1, ?_⟩
  exact (generateMultiImagePrompts_matrix briefC1 []).2 1 2 ⟨"Gadget Mini", "toys", ["small"]⟩
    rfl (by omega)

/-! ## Persistence layer (`campaign-file-manager.ts`) and the orchestrator
loop (`campaign-generate.js`)

The loop's two fallible effects per unit — the generation call and
`saveAssetWithMetadata` — are abstracted into an outcome oracle
`Nat → Option String` (`none`: the `try` block succeeds; `some msg`: it
throws with message `msg`).  `res.write` is modelled as infallible (§5 of
the spec: the progress push must not fail), timestamps and the random
campaign id are parameters, and the best-effort `createDirectoryIndex`
pass is omitted (its failure is caught and affects nothing modelled). -/

/-- `productName.toLowerCase().replace(/[^a-z0-9]/g, '_')` from
`saveAssetWithMetadata`. -/
def sanitizeProductName (productName : String) : String :=
  String.mk (productName.data.map fun c =>
    let d := c.toLower
    if isLowerAlnum d then d else '_')

/-- The project-relative path `saveAssetWithMetadata` returns:
`output/<campaignId>/<product>/<ratio>/<sanitized>_<ratio>_v1.png`. -/
def savedAssetPath (campaignId productName r : String) : String :=
  "output/" ++ campaignId ++ "/" ++ productName ++ "/" ++ r ++ "/" ++
    sanitizeProductName productName ++ "_" ++ r ++ "_v1.png"

/-- One per-unit outcome record of the orchestrator loop (the spread
`{...prompt, assetPath, success, ...}` objects pushed to `results`). -/
structure GenerationResult where
  productName : String
  aspectRatio : String
  generatedPrompt : String
  brandContext : String
  targetAudience : String
  associatedAssets : List AssetData
  assetPath : Option String
  success : Bool
  error : Option String
  generatedAt : String
  usedAssets : List String
  generationMethod : String
  deriving Repr, DecidableEq

/-- The result object the loop pushes for one unit, by outcome. -/
def unitResult (now campaignId : String)
    (u : EnhancedCampaignPrompt × List AssetData) (outcome : Option String) :
    GenerationResult :=
  let method := if u.2.length > 0 then "multi-image-composition" else "text-to-image"
  match outcome with
  | none =>
      ⟨u.1.productName, u.1.aspectRatio, u.1.generatedPrompt, u.1.brandContext,
       u.1.targetAudience, u.1.associatedAssets,
       some (savedAssetPath campaignId u.1.productName u.1.aspectRatio),
       true, none, now, u.2.map (fun a => a.filename), method⟩
  | some e =>
      ⟨u.1.productName, u.1.aspectRatio, u.1.generatedPrompt, u.1.brandContext,
       u.1.targetAudience, u.1.associatedAssets,
       none, false, some e, now, u.2.map (fun a => a.filename), method⟩

/-- Progress-stream frames and pacing of the orchestrator loop. -/
inductive RunEvent where
  | progress (current total : Nat) (productName aspectText status : String)
      (assetsUsed : Nat)
  | delay
  | complete (successCount errorCount totalCount : Nat)
  deriving Repr, DecidableEq

/-- The frames the loop emits for the unit at `idx` (zero-based): the
`generating` frame, then on success the `completed` frame followed by the
inter-unit delay when `index < totalPrompts - 1`; on failure the `error`
frame and — because the `catch` block ends in `continue` — no delay. -/
def unitEvents (idx total : Nat) (u : EnhancedCampaignPrompt × List AssetData)
    (outcome : Option String) : List RunEvent :=
  let generating :=
    RunEvent.progress (idx + 1) total u.1.productName u.1.aspectRatio "generating" u.2.length
  match outcome with
  | none =>
      [generating,
       RunEvent.progress (idx + 1) total u.1.productName u.1.aspectRatio "completed" u.2.length]
        ++ (if idx + 1 < total then [RunEvent.delay] else [])
  | some _ =>
      [generating,
       RunEvent.progress (idx + 1) total u.1.productName u.1.aspectRatio "error" u.2.length]

/-- The loop's mutable state: `results`, the two counters, and the frames
emitted so far. -/
structure RunState where
  results : List GenerationResult
  successCount : Nat
  errorCount : Nat
  events : List RunEvent
  deriving Repr, DecidableEq

/-- One iteration of the `for (const [index, promptData] of
enhancedPrompts.entries())` loop. -/
def processUnit (now campaignId : String) (total : Nat) (st : RunState) (idx : Nat)
    (u : EnhancedCampaignPrompt × List AssetData) (outcome : Option String) : RunState :=
  ⟨st.results ++ [unitResult now campaignId u outcome],
   st.successCount + (if outcome.isNone then 1 else 0),
   st.errorCount + (if outcome.isNone then 0 else 1),
   st.events ++ unitEvents idx total u outcome⟩

/-- The sequential generation loop of `campaign-generate.js`. -/
def runLoop (now campaignId : String) (total : Nat) (oracle : Nat → Option String) :
    List (EnhancedCampaignPrompt × List AssetData) → Nat → RunState → RunState
  | [], _, st => st
  | u :: us, idx, st =>
      runLoop now campaignId total oracle us (idx + 1)
        (processUnit now campaignId total st idx u (oracle idx))

/-- The results the loop appends for `us` starting at index `idx`. -/
def resultsSpec (now campaignId : String) (oracle : Nat → Option String) :
    List (EnhancedCampaignPrompt × List AssetData) → Nat → List GenerationResult
  | [], _ => []
  | u :: us, idx =>
      unitResult now campaignId u (oracle idx) ::
        resultsSpec now campaignId oracle us (idx + 1)

/-- The frames the loop appends for `us` starting at index `idx`. -/
def eventsSpec (total : Nat) (oracle : Nat → Option String) :
    List (EnhancedCampaignPrompt × List AssetData) → Nat → List RunEvent
  | [], _ => []
  | u :: us, idx =>
      unitEvents idx total u (oracle idx) ++ eventsSpec total oracle us (idx + 1)

/-- The three durable documents `createReviewFlag` writes, in write
order. -/
inductive FinalizeDoc where
  | briefDoc
  | reviewFlagDoc
  | summaryDoc
  deriving Repr, DecidableEq

/-- `ReviewStatus` from `campaign.types.ts` (the review flag). -/
structure ReviewStatus where
  campaignId : String
  status : String
  createdAt : String
  lastModified : String
  totalAssets : Nat
  successfulAssets : Nat
  assetsGenerated : List String
  claudeReviewed : Bool
  complianceScore : Option Nat
  reviewStarted : Option String
  reviewCompleted : Option String
  deriving Repr, DecidableEq

/-- The `reviewFlag` object `createReviewFlag` builds from the run's
results. -/
def mkReviewFlag (campaignId now : String) (results : List GenerationResult) :
    ReviewStatus :=
  ⟨campaignId, "pending_review", now, now,
   results.length,
   (results.filter fun r => r.success).length,
   (results.filter fun r => r.success).filterMap (fun r => r.assetPath),
   false, none, none, none⟩

/-- `createReviewFlag` with a per-document write oracle: the three writes
happen in source order — `campaign_brief.json`, `review_status.json`,
`campaign_summary.json` — and the first failing write throws, aborting
the rest.  Returns the documents actually written, the flag record if its
write happened, and whether the call succeeded. -/
def createReviewFlagRun (ok : FinalizeDoc → Bool) (campaignId now : String)
    (results : List GenerationResult) :
    List FinalizeDoc × Option ReviewStatus × Bool :=
  if ok FinalizeDoc.briefDoc = false then ([], none, false)
  else if ok FinalizeDoc.reviewFlagDoc = false then ([FinalizeDoc.briefDoc], none, false)
  else if ok FinalizeDoc.summaryDoc = false then
    ([FinalizeDoc.briefDoc, FinalizeDoc.reviewFlagDoc],
     some (mkReviewFlag campaignId now results), false)
  else
    ([FinalizeDoc.briefDoc, FinalizeDoc.reviewFlagDoc, FinalizeDoc.summaryDoc],
     some (mkReviewFlag campaignId now results), true)

/-- The observable outcome of one full handler run. -/
structure CampaignRunOutcome where
  state : RunState
  finalizeDocs : List FinalizeDoc
  reviewFlag : Option ReviewStatus
  finalizeOk : Bool
  terminal : RunEvent
  deriving Repr, DecidableEq

/-- The full handler run of `campaign-generate.js`: compose the unit
matrix from the raw brief, drive the sequential loop, then call
`createReviewFlag` inside its own `try` whose failure is only logged —
the terminal `complete` frame is emitted regardless of the finalize
outcome. -/
def runCampaign (brief : CampaignBrief) (assets : List AssetData)
    (oracle : Nat → Option String) (ok : FinalizeDoc → Bool)
    (campaignId now : String) : CampaignRunOutcome :=
  let units := generateMultiImagePrompts brief assets
  let st := runLoop now campaignId units.length oracle units 0 ⟨[], 0, 0, []⟩
  let fin := createReviewFlagRun ok campaignId now st.results
  ⟨st, fin.1, fin.2.1, fin.2.2,
   RunEvent.complete st.successCount st.errorCount st.results.length⟩

/-- Is a frame the inter-unit delay? -/
def isDelay : RunEvent → Bool
  | RunEvent.delay => true
  | _ => false

/-- Number of inter-unit delays in a frame list. -/
def countDelays (evs : List RunEvent) : Nat :=
  evs.countP isDelay

/-! ## Loop characterization -/

theorem unitResult_success (now campaignId : String)
    (u : EnhancedCampaignPrompt × List AssetData) (outcome : Option String) :
    (unitResult now campaignId u outcome).success = outcome.isNone := by
  cases outcome <;> rfl

theorem runLoop_eq (now campaignId : String) (total : Nat)
    (oracle : Nat → Option String) :
    ∀ (us : List (EnhancedCampaignPrompt × List AssetData)) (idx : Nat) (st : RunState),
      runLoop now campaignId total oracle us idx st =
        ⟨st.results ++ resultsSpec now campaignId oracle us idx,
         st.successCount +
           (resultsSpec now campaignId oracle us idx).countP (fun r => r.success),
         st.errorCount +
           (resultsSpec now campaignId oracle us idx).countP (fun r => !r.success),
         st.events ++ eventsSpec total oracle us idx⟩ := by
  intro us
  induction us with
  | nil =>
      intro idx st
      cases st
      simp [runLoop, resultsSpec, eventsSpec]
  | cons u us ih =>
      intro idx st
      rw [runLoop, ih]
      cases houtcome : oracle idx <;>
        simp [processUnit, resultsSpec, eventsSpec, RunState.mk.injEq,
          List.countP_cons, unitResult_success, houtcome] <;>
        omega

theorem resultsSpec_length (now campaignId : String) (oracle : Nat → Option String) :
    ∀ (us : List (EnhancedCampaignPrompt × List AssetData)) (idx : Nat),
      (resultsSpec now campaignId oracle us idx).length = us.length := by
  intro us
  induction us with
  | nil => intro idx; rfl
  | cons u us ih => intro idx; simp [resultsSpec, ih]

theorem resultsSpec_getElem? (now campaignId : String) (oracle : Nat → Option String) :
    ∀ (us : List (EnhancedCampaignPrompt × List AssetData)) (idx k : Nat),
      (resultsSpec now campaignId oracle us idx)[k]? =
        (us[k]?).map fun u => unitResult now campaignId u (oracle (idx + k)) := by
  intro us
  induction us with
  | nil => intro idx k; simp [resultsSpec]
  | cons u us ih =>
      intro idx k
      cases k with
      | zero => simp [resultsSpec]
      | succ k =>
          rw [resultsSpec]
          simp only [List.getElem?_cons_succ]
          rw [ih (idx + 1) k]
          have : idx + 1 + k = idx + (k + 1) := by omega
          rw [this]

theorem countP_not_add (p : GenerationResult → Bool) :
    ∀ l : List GenerationResult, l.countP p + l.countP (fun r => !p r) = l.length := by
  intro l
  induction l with
  | nil => rfl
  | cons r l ih =>
      cases h : p r <;> simp [List.countP_cons, h] <;> omega

/-- C2: a unit's failure never aborts the run — every scheduled unit
contributes exactly one result, in order, determined by that unit and its
own outcome alone; the success and failure counters always sum to the
`3 × P` scheduled units, which is the length of the results list. -/
theorem run_failure_isolation (brief : CampaignBrief) (assets : List AssetData)
    (oracle : Nat → Option String) (ok : FinalizeDoc → Bool) (campaignId now : String) :
    (runCampaign brief assets oracle ok campaignId now).state.results.length =
        3 * brief.products.length ∧
    (runCampaign brief assets oracle ok campaignId now).state.successCount +
        (runCampaign brief assets oracle ok campaignId now).state.errorCount =
      (runCampaign brief assets oracle ok campaignId now).state.results.length ∧
    ∀ i u, (generateMultiImagePrompts brief assets)[i]? = some u →
      (runCampaign brief assets oracle ok campaignId now).state.results[i]? =
        some (unitResult now campaignId u (oracle i)) := by
  have hloop := runLoop_eq now campaignId
    (generateMultiImagePrompts brief assets).length oracle
    (generateMultiImagePrompts brief assets) 0 ⟨[], 0, 0, []⟩
  refine ⟨?_, ?_, ?_⟩
  · show (runLoop _ _ _ _ _ _ _).results.length = _
    rw [hloop]
    simp [resultsSpec_length, flatMap_units_length brief assets brief.products,
      generateMultiImagePrompts]
  · show (runLoop _ _ _ _ _ _ _).successCount + (runLoop _ _ _ _ _ _ _).errorCount =
      (runLoop _ _ _ _ _ _ _).results.length
    rw [hloop]
    simpa using countP_not_add (fun r => r.success) _
  · intro i u hu
    show (runLoop _ _ _ _ _ _ _).results[i]? = _
    rw [hloop]
    simp only [List.nil_append]
    rw [resultsSpec_getElem?, hu]
    simp

/-- C2 witness: a one-product run whose second unit fails still yields
three results, with the third unit attempted and successful. -/
theorem run_failure_isolation_witness :
    (runCampaign briefC1 [] (fun i => if i = 1 then some "quota" else none)
        (fun _ => true) "cid" "T").state.results.length = 3 * 2 ∧
    (runCampaign briefC1 [] (fun i => if i = 1 then some "quota" else none)
          (fun _ => true) "cid" "T").state.successCount +
        (runCampaign briefC1 [] (fun i => if i = 1 then some "quota" else none)
          (fun _ => true) "cid" "T").state.errorCount =
      (runCampaign briefC1 [] (fun i => if i = 1 then some "quota" else none)
        (fun _ => true) "cid" "T").state.results.length :=
  ⟨(run_failure_isolation briefC1 [] _ _ "cid" "T").1,
   (run_failure_isolation briefC1 [] _ _ "cid" "T").2.1⟩

/-- C7: when the finalize writes succeed, the run writes exactly one
review flag, after all units have been attempted, and its fields are:
`totalAssets` = number of scheduled units = number of results,
`successfulAssets` = number of successful results,
`claudeReviewed = false`, and null compliance score and review
timestamps. -/
theorem run_review_flag_fields (brief : CampaignBrief) (assets : List AssetData)
    (oracle : Nat → Option String) (ok : FinalizeDoc → Bool) (campaignId now : String)
    (hok : ∀ d, ok d = true) :
    ∃ flag, (runCampaign brief assets oracle ok campaignId now).reviewFlag = some flag ∧
      (runCampaign brief assets oracle ok campaignId now).finalizeDocs.count
          FinalizeDoc.reviewFlagDoc = 1 ∧
      flag.totalAssets = (generateMultiImagePrompts brief assets).length ∧
      flag.totalAssets =
        (runCampaign brief assets oracle ok campaignId now).state.results.length ∧
      flag.successfulAssets =
        ((runCampaign brief assets oracle ok campaignId now).state.results.filter
          fun r => r.success).length ∧
      flag.claudeReviewed = false ∧ flag.complianceScore = none ∧
      flag.reviewStarted = none ∧ flag.reviewCompleted = none := by
  have hlen : (runCampaign brief assets oracle ok campaignId now).state.results.length =
      (generateMultiImagePrompts brief assets).length := by
    show (runLoop _ _ _ _ _ _ _).results.length = _
    rw [runLoop_eq]
    simp [resultsSpec_length]
  refine ⟨mkReviewFlag campaignId now
    (runCampaign brief assets oracle ok campaignId now).state.results, ?_, ?_, ?_, ?_, ?_,
    rfl, rfl, rfl, rfl⟩
  · show (createReviewFlagRun ok campaignId now _).2.1 = _
    simp [createReviewFlagRun, hok]
    rfl
  · show (createReviewFlagRun ok campaignId now _).1.count _ = 1
    simp [createReviewFlagRun, hok]
  · exact hlen
  · rfl
  · rfl

/-- C7 witness: all-success run over one product with all finalize writes
succeeding. -/
theorem run_review_flag_fields_witness :
    ∃ flag, (runCampaign briefC1 [] (fun _ => none) (fun _ => true)
        "cid" "T").reviewFlag = some flag ∧
      (runCampaign briefC1 [] (fun _ => none) (fun _ => true)
          "cid" "T").finalizeDocs.count FinalizeDoc.reviewFlagDoc = 1 ∧
      flag.totalAssets = (generateMultiImagePrompts briefC1 []).length ∧
      flag.totalAssets =
        (runCampaign briefC1 [] (fun _ => none) (fun _ => true)
          "cid" "T").state.results.length ∧
      flag.successfulAssets =
        ((runCampaign briefC1 [] (fun _ => none) (fun _ => true)
          "cid" "T").state.results.filter fun r => r.success).length ∧
      flag.claudeReviewed = false ∧ flag.complianceScore = none ∧
      flag.reviewStarted = none ∧ flag.reviewCompleted = none :=
  run_review_flag_fields briefC1 [] (fun _ => none) (fun _ => true) "cid" "T"
    (fun _ => rfl)

/-! ## C8: inter-unit delay pacing -/

theorem countDelays_unitEvents (idx total : Nat)
    (u : EnhancedCampaignPrompt × List AssetData) (outcome : Option String) :
    (unitEvents idx total u outcome).countP isDelay =
      if outcome.isNone && decide (idx + 1 < total) then 1 else 0 := by
  cases outcome <;> by_cases h : idx + 1 < total <;>
    simp [unitEvents, isDelay, h]

theorem countDelays_eventsSpec (total : Nat) (oracle : Nat → Option String) :
    ∀ (us : List (EnhancedCampaignPrompt × List AssetData)) (idx : Nat),
      countDelays (eventsSpec total oracle us idx) =
        ((List.range' idx us.length).filter fun i =>
          (oracle i).isNone && decide (i + 1 < total)).length := by
  intro us
  induction us with
  | nil => intro idx; simp [eventsSpec, countDelays]
  | cons u us ih =>
      intro idx
      show (unitEvents idx total u (oracle idx) ++
        eventsSpec total oracle us (idx + 1)).countP isDelay = _
      rw [List.countP_append, countDelays_unitEvents]
      have hrec := ih (idx + 1)
      unfold countDelays at hrec
      rw [hrec]
      rw [show (u :: us).length = us.length + 1 from rfl, List.range'_succ,
        List.filter_cons]
      by_cases hc : ((oracle idx).isNone && decide (idx + 1 < total)) = true <;>
        simp [hc] <;> omega

/-- C8 (amended): the inter-unit delay occurs after a unit exactly when
that unit's `try` block succeeded and the unit is not the last one; a
failed unit's `catch` block ends in `continue`, which skips the delay, so
the run proceeds to the next unit immediately. -/
theorem run_delay_policy (brief : CampaignBrief) (assets : List AssetData)
    (oracle : Nat → Option String) (ok : FinalizeDoc → Bool) (campaignId now : String) :
    countDelays (runCampaign brief assets oracle ok campaignId now).state.events =
      ((List.range (generateMultiImagePrompts brief assets).length).filter fun i =>
        (oracle i).isNone &&
          decide (i + 1 < (generateMultiImagePrompts brief assets).length)).length := by
  show countDelays (runLoop _ _ _ _ _ _ _).events = _
  rw [runLoop_eq]
  show countDelays ([] ++ eventsSpec _ _ _ _) = _
  rw [List.nil_append, countDelays_eventsSpec, List.range_eq_range']

/-- A one-product brief for the C8 counterexample. -/
def briefC8 : CampaignBrief :=
  ⟨"c8", [⟨"Solo", "tools", ["x"]⟩], "US", "all", "Go", ⟨["#000"], [], "calm", none, none⟩⟩

/-- C8 counterexample: in a three-unit run whose first unit fails, only
one delay is inserted (after the successful second unit), not the two the
claim requires — the failed first unit is followed by no delay. -/
theorem run_delay_claim_false :
    countDelays (runCampaign briefC8 []
        (fun i => if i = 0 then some "quota exceeded" else none)
        (fun _ => true) "cid" "T").state.events = 1 ∧
    (generateMultiImagePrompts briefC8 []).length = 3 ∧
    (1 : Nat) ≠ 3 - 1 := by
  refine ⟨by decide, by decide, by decide⟩

/-! ## C3: finalize is not atomic -/

/-- A one-product brief for the C3 counterexample. -/
def briefC3 : CampaignBrief :=
  ⟨"c3", [⟨"Trio", "tools", ["y"]⟩], "EU", "ops", "Ship", ⟨["#111"], [], "warm", none, none⟩⟩

/-- A finalize write oracle that fails exactly the
`campaign_summary.json` write. -/
def summaryWriteFails : FinalizeDoc → Bool :=
  fun d => match d with
  | FinalizeDoc.summaryDoc => false
  | _ => true

/-- C3 counterexample: when the `campaign_summary.json` write fails
mid-finalize, `review_status.json` has already been written and stays on
disk without a matching summary, and the run still ends with the
`complete` frame — the finalize failure is only logged, never reported as
a failed step. -/
theorem finalize_partial_state :
    (runCampaign briefC3 [] (fun _ => none) summaryWriteFails
        "cid" "T").finalizeDocs.contains FinalizeDoc.reviewFlagDoc = true ∧
    (runCampaign briefC3 [] (fun _ => none) summaryWriteFails
        "cid" "T").finalizeDocs.contains FinalizeDoc.summaryDoc = false ∧
    (runCampaign briefC3 [] (fun _ => none) summaryWriteFails "cid" "T").finalizeOk =
        false ∧
    (runCampaign briefC3 [] (fun _ => none) summaryWriteFails "cid" "T").terminal =
      RunEvent.complete 3 0 3 := by
  refine ⟨by decide, by decide, by decide, by decide⟩

/-- C3 (amended): the three finalize writes are strictly sequential in
the order brief → review flag → summary; a failing write aborts the
remaining ones, so the written documents always form a prefix of that
order (a summary is never present without the review flag, nor the flag
without the brief), the call succeeds exactly when all three are written,
and the run's terminal frame is `complete` regardless of the finalize
outcome. -/
theorem finalize_sequential_order (ok : FinalizeDoc → Bool)
    (campaignId now : String) (results : List GenerationResult) :
    (createReviewFlagRun ok campaignId now results).1 <+:
        [FinalizeDoc.briefDoc, FinalizeDoc.reviewFlagDoc, FinalizeDoc.summaryDoc] ∧
    ((createReviewFlagRun ok campaignId now results).2.2 = true ↔
      (createReviewFlagRun ok campaignId now results).1 =
        [FinalizeDoc.briefDoc, FinalizeDoc.reviewFlagDoc, FinalizeDoc.summaryDoc]) ∧
    (FinalizeDoc.summaryDoc ∈ (createReviewFlagRun ok campaignId now results).1 →
      FinalizeDoc.reviewFlagDoc ∈ (createReviewFlagRun ok campaignId now results).1) ∧
    (FinalizeDoc.reviewFlagDoc ∈ (createReviewFlagRun ok campaignId now results).1 →
      FinalizeDoc.briefDoc ∈ (createReviewFlagRun ok campaignId now results).1) ∧
    ∀ (brief : CampaignBrief) (assets : List AssetData) (oracle : Nat → Option String),
      (runCampaign brief assets oracle ok campaignId now).terminal =
        RunEvent.complete
          (runCampaign brief assets oracle ok campaignId now).state.successCount
          (runCampaign brief assets oracle ok campaignId now).state.errorCount
          (runCampaign brief assets oracle ok campaignId now).state.results.length := by
  refine ⟨?_, ?_, ?_, ?_, fun brief assets oracle => rfl⟩ <;>
    cases hb : ok FinalizeDoc.briefDoc <;>
    cases hf : ok FinalizeDoc.reviewFlagDoc <;>
    cases hs : ok FinalizeDoc.summaryDoc <;>
    simp [createReviewFlagRun, hb, hf, hs]

/-- C3 amended-claim witness: with all writes succeeding, the documents
are exactly the full ordered triple, so the summary implication applies
concretely. -/
theorem finalize_sequential_order_witness :
    (createReviewFlagRun (fun _ => true) "cid" "T" []).1 <+:
        [FinalizeDoc.briefDoc, FinalizeDoc.reviewFlagDoc, FinalizeDoc.summaryDoc] ∧
    FinalizeDoc.reviewFlagDoc ∈ (createReviewFlagRun (fun _ => true) "cid" "T" []).1 :=
  ⟨(finalize_sequential_order (fun _ => true) "cid" "T" []).1,
   (finalize_sequential_order (fun _ => true) "cid" "T" []).2.2.1 (by decide)⟩

/-! ## C6: asset selection -/

theorem selectAssetForType_def (productName : String) (pool : List AssetData)
    (ty : AssetType) :
    selectAssetForType productName pool ty =
      match (pool.filter fun a => a.productMatch == some productName).find?
          (fun a => a.type == ty) with
      | some a => some a
      | none =>
          (pool.filter fun a => isFalsyTag a.productMatch).find? fun a => a.type == ty :=
  rfl

theorem selectAssetForType_type (productName : String) (pool : List AssetData)
    (ty : AssetType) (a : AssetData)
    (h : selectAssetForType productName pool ty = some a) : a.type = ty := by
  rw [selectAssetForType_def] at h
  split at h
  next b hb =>
    cases h
    have := List.find?_some hb
    simpa using this
  next hb =>
    have := List.find?_some h
    simpa using this

theorem selectAssetForType_tag (productName : String) (pool : List AssetData)
    (ty : AssetType) (a : AssetData)
    (h : selectAssetForType productName pool ty = some a) :
    a.productMatch = some productName ∨ isFalsyTag a.productMatch = true := by
  rw [selectAssetForType_def] at h
  split at h
  next b hb =>
    cases h
    left
    have hmem := List.mem_of_find?_eq_some hb
    simpa using (List.mem_filter.mp hmem).2
  next hb =>
    right
    have hmem := List.mem_of_find?_eq_some h
    exact (List.mem_filter.mp hmem).2

theorem selectAssetForType_spec_exists (productName : String) (pool : List AssetData)
    (ty : AssetType)
    (hex : ∃ x ∈ pool, x.type = ty ∧ x.productMatch = some productName) :
    ∃ a, selectAssetForType productName pool ty = some a ∧ a.type = ty ∧
      a.productMatch = some productName := by
  obtain ⟨x, hx, hty, htag⟩ := hex
  have hsome : ((pool.filter fun b => b.productMatch == some productName).find?
      fun b => b.type == ty).isSome := by
    rw [List.find?_isSome]
    exact ⟨x, List.mem_filter.mpr ⟨hx, by simp [htag]⟩, by simp [hty]⟩
  obtain ⟨a, ha⟩ := Option.isSome_iff_exists.mp hsome
  refine ⟨a, ?_, ?_, ?_⟩
  · rw [selectAssetForType_def, ha]
  · have := List.find?_some ha
    simpa using this
  · have hmem := List.mem_of_find?_eq_some ha
    simpa using (List.mem_filter.mp hmem).2

theorem selectAssetForType_mem_pool (productName : String) (pool : List AssetData)
    (ty : AssetType) (a : AssetData)
    (h : selectAssetForType productName pool ty = some a) : a ∈ pool := by
  rw [selectAssetForType_def] at h
  split at h
  next b hb =>
    cases h
    exact (List.mem_filter.mp (List.mem_of_find?_eq_some hb)).1
  next hb =>
    exact (List.mem_filter.mp (List.mem_of_find?_eq_some h)).1

theorem selectAssetForType_generic_exists (productName : String) (pool : List AssetData)
    (ty : AssetType)
    (hnospec : ¬ ∃ x ∈ pool, x.type = ty ∧ x.productMatch = some productName)
    (hgen : ∃ x ∈ pool, x.type = ty ∧ isFalsyTag x.productMatch = true) :
    ∃ a, selectAssetForType productName pool ty = some a ∧ a.type = ty ∧
      isFalsyTag a.productMatch = true := by
  have hspecnone : ((pool.filter fun b => b.productMatch == some productName).find?
      fun b => b.type == ty) = none := by
    rw [List.find?_eq_none]
    intro b hb hbty
    have hbpool := (List.mem_filter.mp hb).1
    have hbtag := (List.mem_filter.mp hb).2
    exact hnospec ⟨b, hbpool, by simpa using hbty, by simpa using hbtag⟩
  obtain ⟨x, hx, hty, htag⟩ := hgen
  have hsome : ((pool.filter fun b => isFalsyTag b.productMatch).find?
      fun b => b.type == ty).isSome := by
    rw [List.find?_isSome]
    exact ⟨x, List.mem_filter.mpr ⟨hx, htag⟩, by simp [hty]⟩
  obtain ⟨a, ha⟩ := Option.isSome_iff_exists.mp hsome
  refine ⟨a, ?_, ?_, ?_⟩
  · rw [selectAssetForType_def, hspecnone, ha]
  · have := List.find?_some ha
    simpa using this
  · have hmem := List.mem_of_find?_eq_some ha
    exact (List.mem_filter.mp hmem).2

theorem mem_selectBestAssets (productName : String) (pool : List AssetData)
    (a : AssetData) :
    a ∈ selectBestAssetsForProduct productName pool ↔
      ∃ ty ∈ assetTypesOrder, selectAssetForType productName pool ty = some a := by
  unfold selectBestAssetsForProduct
  exact List.mem_filterMap

theorem every_type_mem_order (ty : AssetType) : ty ∈ assetTypesOrder := by
  cases ty <;> simp [assetTypesOrder]

/-- C6: asset selection returns at most one asset per category (the
selected assets have pairwise distinct categories); every selected asset
is either tagged to the requested product or generic, so an asset tagged
to a different product is never chosen; a category with a
product-specific asset in the pool contributes a product-specific asset;
a category with only generic assets contributes a generic one; a
category with neither contributes nothing, without error. -/
theorem selectBestAssets_contract (productName : String) (pool : List AssetData) :
    ((selectBestAssetsForProduct productName pool).Pairwise fun a b => a.type ≠ b.type) ∧
    (∀ a ∈ selectBestAssetsForProduct productName pool,
      a.productMatch = some productName ∨ isFalsyTag a.productMatch = true) ∧
    (∀ ty, (∃ x ∈ pool, x.type = ty ∧ x.productMatch = some productName) →
      ∃ a ∈ selectBestAssetsForProduct productName pool,
        a.type = ty ∧ a.productMatch = some productName) ∧
    (∀ ty, (¬ ∃ x ∈ pool, x.type = ty ∧ x.productMatch = some productName) →
      (∃ x ∈ pool, x.type = ty ∧ isFalsyTag x.productMatch = true) →
      ∃ a ∈ selectBestAssetsForProduct productName pool,
        a.type = ty ∧ isFalsyTag a.productMatch = true) ∧
    (∀ ty, (¬ ∃ x ∈ pool, x.type = ty ∧
        (x.productMatch = some productName ∨ isFalsyTag x.productMatch = true)) →
      ∀ a ∈ selectBestAssetsForProduct productName pool, a.type ≠ ty) := by
  refine ⟨?_, ?_, ?_, ?_, ?_⟩
  · unfold selectBestAssetsForProduct assetTypesOrder
    rw [List.pairwise_filterMap]
    refine List.Pairwise.cons ?_ (List.Pairwise.cons ?_ (List.pairwise_singleton _ _))
    · intro t ht a ha b hb
      rw [selectAssetForType_type productName pool _ a (Option.mem_def.mp ha),
        selectAssetForType_type productName pool t b (Option.mem_def.mp hb)]
      fin_cases ht <;> decide
    · intro t ht a ha b hb
      rw [selectAssetForType_type productName pool _ a (Option.mem_def.mp ha),
        selectAssetForType_type productName pool t b (Option.mem_def.mp hb)]
      fin_cases ht <;> decide
  · intro a ha
    obtain ⟨ty, _, hsel⟩ := (mem_selectBestAssets productName pool a).mp ha
    exact selectAssetForType_tag productName pool ty a hsel
  · intro ty hex
    obtain ⟨a, hsel, hty, htag⟩ := selectAssetForType_spec_exists productName pool ty hex
    exact ⟨a, (mem_selectBestAssets productName pool a).mpr
      ⟨ty, every_type_mem_order ty, hsel⟩, hty, htag⟩
  · intro ty hnospec hgen
    obtain ⟨a, hsel, hty, htag⟩ :=
      selectAssetForType_generic_exists productName pool ty hnospec hgen
    exact ⟨a, (mem_selectBestAssets productName pool a).mpr
      ⟨ty, every_type_mem_order ty, hsel⟩, hty, htag⟩
  · intro ty hnone a ha hty
    obtain ⟨ty', _, hsel⟩ := (mem_selectBestAssets productName pool a).mp ha
    have htag := selectAssetForType_tag productName pool ty' a hsel
    have hmem := selectAssetForType_mem_pool productName pool ty' a hsel
    exact hnone ⟨a, hmem, hty, htag⟩

/-- The spec's §8 example pool: one untagged logo, one untagged
background, a product-image tagged to `Widget Pro`, an untagged
product-image. -/
def poolC6 : List AssetData :=
  [⟨AssetType.logo, "brand_logo.png", "ZZ=", none, "input/assets/logos/brand_logo.png"⟩,
   ⟨AssetType.background, "studio.png", "ZZ=", none, "input/assets/backgrounds/studio.png"⟩,
   ⟨AssetType.productImage, "widget_pro_hero.png", "ZZ=", some "Widget Pro",
    "input/assets/product-images/widget_pro_hero.png"⟩,
   ⟨AssetType.productImage, "generic_product.png", "ZZ=", none,
    "input/assets/product-images/generic_product.png"⟩]

/-- C6 witness: on the spec's example pool, `Widget Pro` gets the tagged
product-image and `Gadget Mini` gets a generic product-image. -/
theorem selectBestAssets_contract_witness :
    (∃ a ∈ selectBestAssetsForProduct "Widget Pro" poolC6,
      a.type = AssetType.productImage ∧ a.productMatch = some "Widget Pro") ∧
    ∃ a ∈ selectBestAssetsForProduct "Gadget Mini" poolC6,
      a.type = AssetType.productImage ∧ isFalsyTag a.productMatch = true :=
  ⟨(selectBestAssets_contract "Widget Pro" poolC6).2.2.1 AssetType.productImage
     (by decide),
   (selectBestAssets_contract "Gadget Mini" poolC6).2.2.2.1 AssetType.productImage
     (by decide) (by decide)⟩

/-! ## C5: composition with zero assets -/

theorem str_data_mid (pre mid suf : String) :
    mid.data <:+: (pre ++ mid ++ suf).data := by
  refine ⟨pre.data, suf.data, ?_⟩
  simp [String.data_append]

theorem multiImagePromptFormat_decomp (p c k t m bc bt re ar po cg fg cd ai ig : String) :
    multiImagePromptFormat p c k t m bc bt re ar po cg fg cd ai ig =
      ("Create a professional product marketing image for " ++ p) ++
      (":\n\nASSET COMPOSITION INSTRUCTIONS:\n" ++ ai) ++
      ("\n\nPRODUCT DETAILS:\n- Product: " ++ p ++
       "\n- Category: " ++ c ++
       "\n- Key Features: " ++ k ++
       "\n- Target Audience: " ++ t ++
       "\n- Campaign Message: \"" ++ m ++
       "\"\n\nBRAND REQUIREMENTS:\n- Brand Colors: " ++ bc ++
       "\n- Visual Tone: " ++ bt ++
       "\n- Required Elements: " ++ re ++
       "\n\nTECHNICAL SPECIFICATIONS:\n- Aspect Ratio: " ++ ar ++
       "\n- Platform Optimization: " ++ po ++
       "\n- Composition Style: " ++ cg ++
       "\n\nCREATIVE DIRECTION:\nSeamlessly compose all provided images into a cohesive marketing asset that:\n\n1. ASSET INTEGRATION: " ++ ig ++
       "\n\n2. PRODUCT FOCUS: Showcase the " ++ p ++
       " prominently with clear visibility of its key features: " ++ k ++
       "\n\n3. BRAND CONSISTENCY: \n   - Use brand color palette: " ++ bc ++
       "\n   - Maintain " ++ bt ++
       " visual aesthetic\n   - Include required brand elements: " ++ re ++
       "\n\n4. AUDIENCE APPEAL: Design to resonate with " ++ t ++
       ", conveying the message \"" ++ m ++
       "\"\n\n5. FORMAT OPTIMIZATION: " ++ fg ++
       "\n\n6. COMPOSITION: " ++ cd ++
       "\n\nStyle: Professional product photography, clean and modern, high resolution, excellent lighting, premium quality aesthetic, marketing-ready commercial image.") := by
  unfold multiImagePromptFormat
  simp [String.append_assoc]

/-- C5 (amended): every generated unit whose matched-asset list is empty —
whatever the asset pool — carries no assets, and its prompt is still
rendered with the asset-aware multi-image template, whose
asset-composition block holds the fixed no-asset placeholder — the
text-only template is not used (only the legacy `generateCampaignPrompts`
path uses it). -/
theorem generateMultiImagePrompts_no_assets (brief : CampaignBrief)
    (assets : List AssetData) (u : EnhancedCampaignPrompt × List AssetData)
    (hu : u ∈ generateMultiImagePrompts brief assets) (hempty : u.2 = []) :
    u.1.associatedAssets = [] ∧
    (":\n\nASSET COMPOSITION INSTRUCTIONS:\nNo existing assets provided - generate all elements using AI.").data
      <:+: u.1.generatedPrompt.data := by
  obtain ⟨product, hprod, hu⟩ := List.mem_flatMap.mp hu
  obtain ⟨r, hr, rfl⟩ := List.mem_map.mp hu
  have hsel : selectBestAssetsForProduct product.name assets = [] := hempty
  refine ⟨hsel, ?_⟩
  show _ <:+:
    ((mkPromptUnit brief (selectBestAssetsForProduct product.name assets) product
      r).1.generatedPrompt).data
  rw [hsel]
  rw [show (mkPromptUnit brief [] product r).1.generatedPrompt =
      multiImagePromptFormat product.name product.category
        (String.intercalate ", " product.keyFeatures)
        brief.targetAudience brief.campaignMessage
        (String.intercalate ", " brief.brandGuidelines.colors)
        brief.brandGuidelines.tone
        (requiredElementsText brief.brandGuidelines)
        r
        (ASPECT_RATIO_CONFIGS r).platformOptimization
        (ASPECT_RATIO_CONFIGS r).compositionGuide
        (ASPECT_RATIO_CONFIGS r).formatSpecificGuidance
        (ASPECT_RATIO_CONFIGS r).compositionDetails
        "No existing assets provided - generate all elements using AI."
        "Create cohesive design elements that work together harmoniously."
      from rfl]
  rw [multiImagePromptFormat_decomp]
  rw [show (":\n\nASSET COMPOSITION INSTRUCTIONS:\nNo existing assets provided - generate all elements using AI." : String) =
      ":\n\nASSET COMPOSITION INSTRUCTIONS:\n" ++
        "No existing assets provided - generate all elements using AI." by decide]
  exact str_data_mid _ _ _

/-- A one-product brief for the C5 counterexample and witness. -/
def briefC5 : CampaignBrief :=
  ⟨"c5", [⟨"Lamp", "home", ["bright"]⟩], "US", "homes", "Glow",
   ⟨["#f00"], [], "cozy", none, none⟩⟩

/-- C5 counterexample: with zero matched assets the composed prompt is not
the text-only rendering — it contains the asset-composition block of the
multi-image template. -/
theorem prompt_template_claim_false :
    ((generateMultiImagePrompts briefC5 []).map fun u =>
        strIncludes u.1.generatedPrompt.data "ASSET COMPOSITION INSTRUCTIONS:".data).head? =
      some true ∧
    ((generateMultiImagePrompts briefC5 []).map fun u => u.1.generatedPrompt).head? ≠
      ((generateCampaignPrompts briefC5).map fun p => p.generatedPrompt).head? := by
  refine ⟨by decide, by decide⟩

/-- A non-empty pool whose only asset is tagged to a different product, so
the matched-asset list for `Lamp` is empty. -/
def poolC5 : List AssetData :=
  [⟨AssetType.productImage, "other_widget.png", "ZZ=", some "Other Widget",
    "input/assets/product-images/other_widget.png"⟩]

/-- C5 amended-claim witness: a unit composed over a non-empty pool whose
matched-asset list is nevertheless empty satisfies the amended
statement. -/
theorem generateMultiImagePrompts_no_assets_witness :
    (mkPromptUnit briefC5 (selectBestAssetsForProduct "Lamp" poolC5)
      ⟨"Lamp", "home", ["bright"]⟩ "1:1").1.associatedAssets = [] ∧
    (":\n\nASSET COMPOSITION INSTRUCTIONS:\nNo existing assets provided - generate all elements using AI.").data
      <:+: (mkPromptUnit briefC5 (selectBestAssetsForProduct "Lamp" poolC5)
        ⟨"Lamp", "home", ["bright"]⟩ "1:1").1.generatedPrompt.data :=
  generateMultiImagePrompts_no_assets briefC5 poolC5
    (mkPromptUnit briefC5 (selectBestAssetsForProduct "Lamp" poolC5)
      ⟨"Lamp", "home", ["bright"]⟩ "1:1")
    (by
      show mkPromptUnit briefC5 (selectBestAssetsForProduct "Lamp" poolC5)
          ⟨"Lamp", "home", ["bright"]⟩ "1:1" ∈
        briefC5.products.flatMap (unitsForProduct briefC5 poolC5)
      exact List.mem_flatMap.mpr ⟨⟨"Lamp", "home", ["bright"]⟩, by decide,
        List.mem_map.mpr ⟨"1:1", by decide, rfl⟩⟩)
    (by decide)

/-! ## C9: brief defaulting before composition -/

/-- The prompt-composition step of the API handler
(`campaign-generate.js`): the request brief is passed to
`generateMultiImagePrompts` as-is — `validateAndEnhanceBrief` is not
invoked on this path. -/
def handlerComposePrompts (brief : CampaignBrief) (loadedAssets : List AssetData) :
    List (EnhancedCampaignPrompt × List AssetData) :=
  generateMultiImagePrompts brief loadedAssets

/-- The composition step as the specification words it: the brief is
validated and defaulted before use, so every composed prompt observes a
brief with both optional lists present.  For comparison with
`handlerComposePrompts`. -/
def specDefaultedComposePrompts (brief : CampaignBrief) (loadedAssets : List AssetData) :
    List (EnhancedCampaignPrompt × List AssetData) :=
  generateMultiImagePrompts (validateAndEnhanceBrief brief) loadedAssets

/-- The brief with its required-elements list replaced. -/
def withRequiredElements (brief : CampaignBrief) (l : Option (List String)) :
    CampaignBrief :=
  { brief with brandGuidelines := { brief.brandGuidelines with requiredElements := l } }

/-- The brief with its prohibited-content list replaced. -/
def withProhibitedContent (brief : CampaignBrief) (l : Option (List String)) :
    CampaignBrief :=
  { brief with brandGuidelines := { brief.brandGuidelines with prohibitedContent := l } }

/-- A one-product brief missing both optional lists, for C9. -/
def briefC9 : CampaignBrief :=
  ⟨"c9", [⟨"Mug", "kitchen", ["ceramic"]⟩], "US", "cafes", "Sip",
   ⟨["#0f0"], [], "fresh", none, none⟩⟩

/-- C9 counterexample: for a brief lacking the required-elements list, the
handler's composed prompts differ from the prompts composed over the
defaulted brief — the handler never applies `validateAndEnhanceBrief`, so
composition observes the brief with the lists still missing (the prompt
renders the inline single default `brand logo` instead of the documented
`brand logo, legal disclaimer`). -/
theorem brief_defaulting_claim_false :
    briefC9.brandGuidelines.requiredElements = none ∧
    briefC9.brandGuidelines.prohibitedContent = none ∧
    ((handlerComposePrompts briefC9 []).map fun u => u.1.generatedPrompt).head? ≠
      ((specDefaultedComposePrompts briefC9 []).map fun u => u.1.generatedPrompt).head? := by
  refine ⟨rfl, rfl, by decide⟩

theorem gmipList_prompts_congr (b b' : CampaignBrief) (assets : List AssetData)
    (ht : b'.targetAudience = b.targetAudience)
    (hm : b'.campaignMessage = b.campaignMessage)
    (hc : b'.brandGuidelines.colors = b.brandGuidelines.colors)
    (htone : b'.brandGuidelines.tone = b.brandGuidelines.tone)
    (hre : requiredElementsText b'.brandGuidelines =
      requiredElementsText b.brandGuidelines) :
    ∀ ps : List CampaignProduct,
      ((ps.flatMap (unitsForProduct b' assets)).map fun u => u.1.generatedPrompt) =
        ((ps.flatMap (unitsForProduct b assets)).map fun u => u.1.generatedPrompt) := by
  intro ps
  induction ps with
  | nil => simp
  | cons p ps ih =>
      rw [List.flatMap_cons, List.flatMap_cons, List.map_append, List.map_append, ih]
      have hhead : ((unitsForProduct b' assets p).map fun u => u.1.generatedPrompt) =
          ((unitsForProduct b assets p).map fun u => u.1.generatedPrompt) := by
        simp only [unitsForProduct, List.map_map]
        apply List.map_congr_left
        intro r hr
        simp only [Function.comp, mkPromptUnit, ht, hm, hc, htone, hre]
      rw [hhead]

theorem gmip_prompts_congr (b b' : CampaignBrief) (assets : List AssetData)
    (hp : b'.products = b.products)
    (ht : b'.targetAudience = b.targetAudience)
    (hm : b'.campaignMessage = b.campaignMessage)
    (hc : b'.brandGuidelines.colors = b.brandGuidelines.colors)
    (htone : b'.brandGuidelines.tone = b.brandGuidelines.tone)
    (hre : requiredElementsText b'.brandGuidelines =
      requiredElementsText b.brandGuidelines) :
    ((generateMultiImagePrompts b' assets).map fun u => u.1.generatedPrompt) =
      ((generateMultiImagePrompts b assets).map fun u => u.1.generatedPrompt) := by
  unfold generateMultiImagePrompts
  rw [hp]
  exact gmipList_prompts_congr b b' assets ht hm hc htone hre b.products

/-- C9 (amended): the handler composes from the raw brief; a missing
required-elements list is rendered through the inline `|| 'brand logo'`
default — the composed prompt text is exactly what the list
`['brand logo']` would give, not `validateAndEnhanceBrief`'s
`['brand logo', 'legal disclaimer']` — and the prohibited-content list is
never read during composition, so the prompt text is invariant under any
change to it. -/
theorem handler_compose_inline_defaults (brief : CampaignBrief)
    (assets : List AssetData)
    (hre : brief.brandGuidelines.requiredElements = none) :
    (((handlerComposePrompts brief assets).map fun u => u.1.generatedPrompt) =
      ((handlerComposePrompts (withRequiredElements brief (some ["brand logo"])) assets).map
        fun u => u.1.generatedPrompt)) ∧
    ∀ pc, ((handlerComposePrompts (withProhibitedContent brief pc) assets).map
        fun u => u.1.generatedPrompt) =
      ((handlerComposePrompts brief assets).map fun u => u.1.generatedPrompt) := by
  constructor
  · refine (gmip_prompts_congr brief
      (withRequiredElements brief (some ["brand logo"])) assets rfl rfl rfl rfl rfl ?_).symm
    simp only [withRequiredElements, requiredElementsText, hre]
    decide
  · intro pc
    exact gmip_prompts_congr brief (withProhibitedContent brief pc) assets
      rfl rfl rfl rfl rfl rfl

/-- C9 amended-claim witness at a concrete brief. -/
theorem handler_compose_inline_defaults_witness :
    (((handlerComposePrompts briefC9 []).map fun u => u.1.generatedPrompt) =
      ((handlerComposePrompts (withRequiredElements briefC9 (some ["brand logo"])) []).map
        fun u => u.1.generatedPrompt)) ∧
    ((handlerComposePrompts (withProhibitedContent briefC9 (some ["competitor mentions"])) []).map
        fun u => u.1.generatedPrompt) =
      ((handlerComposePrompts briefC9 []).map fun u => u.1.generatedPrompt) :=
  ⟨(handler_compose_inline_defaults briefC9 [] rfl).1,
   (handler_compose_inline_defaults briefC9 [] rfl).2 (some ["competitor mentions"])⟩

end ContentEngine
